import Mathlib

/-!
Verification development for the Zeek process Supervisor
(src/src/Supervisor.h).  The data model (ClusterEndpoint, NodeConfig,
Node, the Supervisor node map) is embedded from the header.  The
repository ships only the header; the implementations of
Supervisor::Create/Destroy/Restart/Status, the Stem revival policy, the
JSON conversions and the parent-liveness timer dispatch live in a
Supervisor.cc that is not part of src/, so those operations are modelled
from the specification, as marked in their doc comments.
-/

namespace ZeekSup

/-- Cluster role enumeration, embedding BifEnum::Supervisor::ClusterRole
(manager, logger, worker, proxy, or none). -/
inductive ClusterRole where
  | NONE : ClusterRole
  | LOGGER : ClusterRole
  | MANAGER : ClusterRole
  | PROXY : ClusterRole
  | WORKER : ClusterRole
deriving DecidableEq, Repr

/-- Embedding of Supervisor::ClusterEndpoint: role, host, TCP port and an
optional packet-capture interface name. -/
structure ClusterEndpoint where
  role : ClusterRole
  host : String
  port : Int
  interface : Option String
deriving DecidableEq, Repr

/-- Embedding of Supervisor::NodeConfig.  The cluster map
(std::map keyed by node name) is embedded as an association list. -/
structure NodeConfig where
  name : String
  interface : Option String := none
  directory : Option String := none
  stdout_file : Option String := none
  stderr_file : Option String := none
  cpu_affinity : Option Int := none
  scripts : List String := []
  cluster : List (String × ClusterEndpoint) := []
deriving DecidableEq, Repr

/-- Embedding of Supervisor::Node.  The field defaults are exactly the
in-class member initializers of the header: pid = 0, killed = false,
exit_status = 0, signal_number = 0, revival_attempts = 0,
revival_delay = 1, default-constructed (epoch) spawn_time. -/
structure Node where
  config : NodeConfig
  pid : Int := 0
  killed : Bool := false
  exit_status : Int := 0
  signal_number : Int := 0
  revival_attempts : Int := 0
  revival_delay : Int := 1
  spawn_time : Nat := 0
deriving DecidableEq, Repr

/-- Embedding of the Node(NodeConfig) constructor: only config is taken
from the argument, every other field keeps its member initializer. -/
def Node.init (cfg : NodeConfig) : Node := { config := cfg }

/-- Embedding of Node::Name, which returns config.name. -/
def Node.Name (n : Node) : String := n.config.name

/-- Lookup in the Supervisor::NodeMap (std::map keyed by node name),
embedded as an association-list find. -/
def findNode : List (String × Node) → String → Option Node
  | [], _ => none
  | (k, v) :: rest, key => if k = key then some v else findNode rest key

/-- Removal of a named entry from the NodeMap (std::map::erase). -/
def removeNode : List (String × Node) → String → List (String × Node)
  | [], _ => []
  | (k, v) :: rest, key =>
      if k = key then removeNode rest key else (k, v) :: removeNode rest key

/-- Entries of the NodeMap whose key matches the given name. -/
def matchingNodes : List (String × Node) → String → List Node
  | [], _ => []
  | (k, v) :: rest, key =>
      if k = key then v :: matchingNodes rest key else matchingNodes rest key

/-- Embedding of the Supervisor state relevant to the control API: the
node map, the Stem process id, a fresh-pid source and a clock used to
stamp spawn_time. -/
structure Supervisor where
  nodes : List (String × Node)
  stem_pid : Int
  next_pid : Nat
  time : Nat
deriving DecidableEq, Repr

/-- Modelled from the spec: Supervisor::Create (implementation not under
src/).  Rejects a duplicate name with an AlreadyExists error string and
leaves the state unchanged; otherwise inserts a fresh Node built by the
Node constructor, spawns it (records a positive pid and the spawn time)
and returns the empty string for success. -/
def Supervisor.create (s : Supervisor) (cfg : NodeConfig) : Supervisor × String :=
  match findNode s.nodes cfg.name with
  | some _ => (s, "node with name already exists: " ++ cfg.name)
  | none =>
      let n := { Node.init cfg with pid := Int.ofNat s.next_pid, spawn_time := s.time }
      ({ s with nodes := s.nodes ++ [(cfg.name, n)], next_pid := s.next_pid + 1 }, "")

/-- Modelled from the spec: Supervisor::Destroy (implementation not under
src/).  An empty name destroys every Node; a named Node is killed and its
entry removed entirely; an unknown non-empty name fails.  The header
declares the return type bool: true on success. -/
def Supervisor.destroy (s : Supervisor) (name : String) : Supervisor × Bool :=
  if name = "" then ({ s with nodes := [] }, true)
  else
    match findNode s.nodes name with
    | some _ => ({ s with nodes := removeNode s.nodes name }, true)
    | none => (s, false)

/-- Modelled from the spec: Supervisor::Restart (implementation not under
src/): destroy followed by create with the stored NodeConfig, the caller
supplying no configuration; an empty name restarts every Node.  The
header declares the return type bool: true on success. -/
def Supervisor.restart (s : Supervisor) (name : String) : Supervisor × Bool :=
  if name = "" then
    let cfgs := s.nodes.map (fun p => p.2.config)
    let s1 := (s.destroy "").1
    (cfgs.foldl (fun acc cfg => (acc.create cfg).1) s1, true)
  else
    match findNode s.nodes name with
    | none => (s, false)
    | some node =>
        let s1 := (s.destroy name).1
        let r := s1.create node.config
        (r.1, decide (r.2 = ""))

/-- Modelled from the spec: Supervisor::Status (implementation not under
src/): returns an immutable snapshot of every matching Node without
mutating state; an empty name matches all Nodes. -/
def Supervisor.status (s : Supervisor) (name : String) : List Node :=
  if name = "" then s.nodes.map (fun p => p.2)
  else matchingNodes s.nodes name

/-- Modelled from the spec: the Stem reap step (Stem implementation not
under src/).  Records exit_status/signal_number and clears the pid.  If
killed is true the Node stays stopped; on an unplanned death (killed
false) the revival step increments revival_attempts and doubles
revival_delay up to the fixed ceiling for the next unplanned death. -/
def Node.reap (ceiling : Int) (n : Node) (exitStatus sig : Int) : Node :=
  let m := { n with exit_status := exitStatus, signal_number := sig, pid := 0 }
  if m.killed then m
  else
    { m with revival_attempts := m.revival_attempts + 1,
             revival_delay := min (m.revival_delay * 2) ceiling }

/-- Modelled from the spec: the stability check of the Stem revival
policy (implementation not under src/).  A revived process that is live
and has stayed up past the stability threshold has revival_attempts
reset to 0 and revival_delay reset to 1. -/
def Node.checkStability (threshold now : Nat) (n : Node) : Node :=
  if n.pid ≠ 0 ∧ n.spawn_time + threshold ≤ now then
    { n with revival_attempts := 0, revival_delay := 1 }
  else n

/-- JSON values, the target of NodeConfig::ToJSON: null, strings,
integers, arrays and objects (an object is an ordered field list). -/
inductive Json where
  | null : Json
  | str : String → Json
  | int : Int → Json
  | arr : List Json → Json
  | obj : List (String × Json) → Json

/-- Encoding of an optional string field: absent encodes as null. -/
def encodeOptStr : Option String → Json
  | none => Json.null
  | some s => Json.str s

/-- Encoding of an optional integer field: absent encodes as null. -/
def encodeOptInt : Option Int → Json
  | none => Json.null
  | some n => Json.int n

/-- Name of a cluster role in the JSON form. -/
def ClusterRole.toJsonStr : ClusterRole → String
  | .NONE => "NONE"
  | .LOGGER => "LOGGER"
  | .MANAGER => "MANAGER"
  | .PROXY => "PROXY"
  | .WORKER => "WORKER"

/-- Modelled from the spec: the JSON form of a ClusterEndpoint, with the
fields of the data model (role, host, port, optional interface). -/
def ClusterEndpoint.toJson (e : ClusterEndpoint) : Json :=
  Json.obj [("role", Json.str e.role.toJsonStr),
            ("host", Json.str e.host),
            ("port", Json.int e.port),
            ("interface", encodeOptStr e.interface)]

/-- Modelled from the spec: NodeConfig::ToJSON (implementation not under
src/), writing every field of the data model. -/
def NodeConfig.toJSON (c : NodeConfig) : Json :=
  Json.obj [("name", Json.str c.name),
            ("interface", encodeOptStr c.interface),
            ("directory", encodeOptStr c.directory),
            ("stdout_file", encodeOptStr c.stdout_file),
            ("stderr_file", encodeOptStr c.stderr_file),
            ("cpu_affinity", encodeOptInt c.cpu_affinity),
            ("scripts", Json.arr (c.scripts.map Json.str)),
            ("cluster", Json.obj (c.cluster.map (fun p => (p.1, p.2.toJson))))]

/-- Field lookup in a JSON object. -/
def getField : List (String × Json) → String → Option Json
  | [], _ => none
  | (k, v) :: rest, key => if k = key then some v else getField rest key

/-- Decoding of a mandatory string value. -/
def decodeStr : Json → Option String
  | Json.str s => some s
  | _ => none

/-- Decoding of a mandatory integer value. -/
def decodeInt : Json → Option Int
  | Json.int n => some n
  | _ => none

/-- Decoding of an optional string field (null decodes to absent). -/
def decodeOptStr : Json → Option (Option String)
  | Json.null => some none
  | Json.str s => some (some s)
  | _ => none

/-- Decoding of an optional integer field (null decodes to absent). -/
def decodeOptInt : Json → Option (Option Int)
  | Json.null => some none
  | Json.int n => some (some n)
  | _ => none

/-- Decoding of a cluster role name. -/
def ClusterRole.fromJsonStr : String → Option ClusterRole
  | "NONE" => some .NONE
  | "LOGGER" => some .LOGGER
  | "MANAGER" => some .MANAGER
  | "PROXY" => some .PROXY
  | "WORKER" => some .WORKER
  | _ => none

/-- Modelled from the spec: decoding of a ClusterEndpoint from JSON. -/
def ClusterEndpoint.fromJson : Json → Option ClusterEndpoint
  | Json.obj fs => do
      let role ← (← (getField fs "role").bind decodeStr) |> ClusterRole.fromJsonStr
      let host ← (getField fs "host").bind decodeStr
      let port ← (getField fs "port").bind decodeInt
      let itf ← (getField fs "interface").bind decodeOptStr
      some { role := role, host := host, port := port, interface := itf }
  | _ => none

/-- Decoding of a JSON string array into a script list. -/
def decodeStrList : List Json → Option (List String)
  | [] => some []
  | j :: rest => do
      let s ← decodeStr j
      let tail ← decodeStrList rest
      some (s :: tail)

/-- Decoding of the cluster object fields into the cluster map. -/
def decodeClusterList : List (String × Json) → Option (List (String × ClusterEndpoint))
  | [] => some []
  | (k, j) :: rest => do
      let e ← ClusterEndpoint.fromJson j
      let tail ← decodeClusterList rest
      some ((k, e) :: tail)

/-- Modelled from the spec: NodeConfig::FromJSON (implementation not
under src/), reading back every field; decoding is fallible. -/
def NodeConfig.fromJSON : Json → Option NodeConfig
  | Json.obj fs => do
      let name ← (getField fs "name").bind decodeStr
      let itf ← (getField fs "interface").bind decodeOptStr
      let dir ← (getField fs "directory").bind decodeOptStr
      let so ← (getField fs "stdout_file").bind decodeOptStr
      let se ← (getField fs "stderr_file").bind decodeOptStr
      let aff ← (getField fs "cpu_affinity").bind decodeOptInt
      let scripts ←
        match getField fs "scripts" with
        | some (Json.arr xs) => decodeStrList xs
        | _ => none
      let cluster ←
        match getField fs "cluster" with
        | some (Json.obj xs) => decodeClusterList xs
        | _ => none
      some { name := name, interface := itf, directory := dir, stdout_file := so,
             stderr_file := se, cpu_affinity := aff, scripts := scripts,
             cluster := cluster }
  | _ => none

/-- Modelled from the spec: the tick schedule of the
ParentProcessCheckTimer, which first fires at time t0 and re-arms every
interval seconds; tick k fires at t0 + k * interval. -/
def tickTime (t0 interval k : Nat) : Nat := t0 + k * interval

/-- Modelled from the spec: ParentProcessCheckTimer::Dispatch
(implementation not under src/).  At tick time t it compares the current
parent process identity with the identity recorded at startup and
returns true (self-terminate) exactly when they differ. -/
def parentCheckDispatch (recorded : Nat) (parentAt : Nat → Nat) (t : Nat) : Bool :=
  parentAt t != recorded

/-! Helper lemmas about the JSON encoding. -/

theorem decodeOptStr_encode (o : Option String) : decodeOptStr (encodeOptStr o) = some o := by
  cases o <;> rfl

theorem decodeOptInt_encode (o : Option Int) : decodeOptInt (encodeOptInt o) = some o := by
  cases o <;> rfl

theorem role_roundtrip (r : ClusterRole) : ClusterRole.fromJsonStr r.toJsonStr = some r := by
  cases r <;> rfl

theorem endpoint_roundtrip (e : ClusterEndpoint) :
    ClusterEndpoint.fromJson e.toJson = some e := by
  obtain ⟨role, host, port, itf⟩ := e
  cases role <;> cases itf <;> rfl

theorem decodeStrList_encode (xs : List String) :
    decodeStrList (xs.map Json.str) = some xs := by
  induction xs with
  | nil => rfl
  | cons x rest ih =>
      simp [List.map, decodeStrList, decodeStr, ih]

theorem decodeClusterList_encode (m : List (String × ClusterEndpoint)) :
    decodeClusterList (m.map (fun p => (p.1, p.2.toJson))) = some m := by
  induction m with
  | nil => rfl
  | cons p rest ih =>
      simp [List.map, decodeClusterList, endpoint_roundtrip, ih]

theorem fromJSON_toJSON (c : NodeConfig) :
    NodeConfig.fromJSON c.toJSON = some c := by
  obtain ⟨name, itf, dir, so, se, aff, scripts, cluster⟩ := c
  simp [NodeConfig.toJSON, NodeConfig.fromJSON, getField, decodeStr,
        decodeOptStr_encode, decodeOptInt_encode, decodeStrList_encode,
        decodeClusterList_encode]

/-! Helper lemmas about the node map. -/

theorem findNode_removeNode (l : List (String × Node)) (k : String) :
    findNode (removeNode l k) k = none := by
  induction l with
  | nil => rfl
  | cons p rest ih =>
      by_cases h : p.1 = k
      · simpa [removeNode, h] using ih
      · simp [removeNode, findNode, h, ih]

theorem matchingNodes_of_findNode_none (l : List (String × Node)) (k : String)
    (h : findNode l k = none) : matchingNodes l k = [] := by
  induction l with
  | nil => rfl
  | cons p rest ih =>
      by_cases hk : p.1 = k
      · simp [findNode, hk] at h
      · simp [findNode, hk] at h
        simp [matchingNodes, hk, ih h]

theorem matchingNodes_removeNode (l : List (String × Node)) (k : String) :
    matchingNodes (removeNode l k) k = [] :=
  matchingNodes_of_findNode_none _ _ (findNode_removeNode l k)

theorem findNode_append_none (l : List (String × Node)) (k : String) (v : Node)
    (h : findNode l k = none) : findNode (l ++ [(k, v)]) k = some v := by
  induction l with
  | nil => simp [findNode]
  | cons p rest ih =>
      by_cases hk : p.1 = k
      · simp [findNode, hk] at h
      · simp [findNode, hk] at h ⊢
        exact ih h

theorem mem_removeNode (l : List (String × Node)) (k : String) (p : String × Node)
    (h : p ∈ removeNode l k) : p ∈ l := by
  induction l with
  | nil => simp [removeNode] at h
  | cons q rest ih =>
      by_cases hk : q.1 = k
      · simp [removeNode, hk] at h
        exact List.mem_cons_of_mem _ (ih h)
      · simp [removeNode, hk] at h
        rcases h with h | h
        · simp [h]
        · exact List.mem_cons_of_mem _ (ih h)

theorem findNode_mem (l : List (String × Node)) (k : String) (v : Node)
    (h : findNode l k = some v) : (k, v) ∈ l := by
  induction l with
  | nil => simp [findNode] at h
  | cons q rest ih =>
      obtain ⟨qk, qv⟩ := q
      by_cases hk : qk = k
      · simp [findNode, hk] at h
        subst hk
        subst h
        exact List.mem_cons_self _ _
      · simp [findNode, hk] at h
        exact List.mem_cons_of_mem _ (ih h)

/-- Key invariant of the Supervisor::NodeMap: every entry is keyed by the
name stored in its Node's configuration. -/
def NodeMapKeysMatch (l : List (String × Node)) : Prop :=
  ∀ p ∈ l, p.1 = p.2.config.name

theorem keysMatch_create (s : Supervisor) (cfg : NodeConfig)
    (h : NodeMapKeysMatch s.nodes) : NodeMapKeysMatch ((s.create cfg).1).nodes := by
  unfold Supervisor.create
  cases hf : findNode s.nodes cfg.name with
  | some n => exact h
  | none =>
      intro p hp
      simp at hp
      rcases hp with hp | hp
      · exact h p hp
      · simp [hp, Node.init]

theorem keysMatch_destroy (s : Supervisor) (name : String)
    (h : NodeMapKeysMatch s.nodes) : NodeMapKeysMatch ((s.destroy name).1).nodes := by
  unfold Supervisor.destroy
  by_cases he : name = ""
  · intro p hp
    simp [he] at hp
  · cases hf : findNode s.nodes name with
    | some n =>
        intro p hp
        simp [he] at hp
        exact h p (mem_removeNode _ _ _ hp)
    | none =>
        simpa [he] using h

theorem keysMatch_createFold (cfgs : List NodeConfig) (acc : Supervisor)
    (h : NodeMapKeysMatch acc.nodes) :
    NodeMapKeysMatch (cfgs.foldl (fun a cfg => (a.create cfg).1) acc).nodes := by
  induction cfgs generalizing acc with
  | nil => exact h
  | cons cfg rest ih =>
      exact ih _ (keysMatch_create acc cfg h)

theorem keysMatch_restart (s : Supervisor) (name : String)
    (h : NodeMapKeysMatch s.nodes) : NodeMapKeysMatch ((s.restart name).1).nodes := by
  unfold Supervisor.restart
  by_cases he : name = ""
  · simp only [he, if_pos rfl]
    apply keysMatch_createFold
    intro p hp
    simp [Supervisor.destroy] at hp
  · cases hf : findNode s.nodes name with
    | none => simpa [he, hf] using h
    | some node =>
        simp only [he, hf, if_neg he]
        exact keysMatch_create _ _ (keysMatch_destroy s name h)

theorem create_err_ne_empty (t : String) :
    "node with name already exists: " ++ t ≠ "" := by
  intro h
  have hlen := congrArg String.length h
  simp [String.length_append] at hlen
  exact absurd hlen.1 (by decide)

theorem create_snd_empty_iff (s : Supervisor) (cfg : NodeConfig) :
    (s.create cfg).2 = "" ↔ findNode s.nodes cfg.name = none := by
  unfold Supervisor.create
  cases hf : findNode s.nodes cfg.name with
  | some n => simpa using create_err_ne_empty cfg.name
  | none => simp

/-! Concrete fixtures used by witnesses and counterexamples. -/

/-- A concrete worker configuration. -/
def cfgA : NodeConfig := { name := "w1" }

/-- The initial Supervisor state: empty node map. -/
def supervisor0 : Supervisor := { nodes := [], stem_pid := 100, next_pid := 1, time := 0 }

/-- Supervisor state after creating cfgA. -/
def sup1 : Supervisor := (supervisor0.create cfgA).1

/-- The Node stored for cfgA inside sup1. -/
def nodeA1 : Node := { Node.init cfgA with pid := 1, spawn_time := 0 }

/-- A concrete configuration whose cpu_affinity is the negative integer
-1, representable because the header declares cpu_affinity as
std::optional of a signed int. -/
def cfgNegAff : NodeConfig := { name := "w1", cpu_affinity := some (-1) }

/-- A family of configurations carrying an arbitrary integer affinity. -/
def cfgWithAff (z : Int) : NodeConfig := { name := "w1", cpu_affinity := some z }

/-- A concrete parent-identity trace: the parent pid is 5 until time 7,
when the parent dies and the process is re-parented to pid 1. -/
def parentTraceA (t : Nat) : Nat := if t < 7 then 5 else 1

/-! Claim theorems. -/

/-- C8: a freshly constructed Node starts not running: pid = 0, killed =
false, exit_status = 0, signal_number = 0, revival_attempts = 0 and
revival_delay = 1; only the config field is taken from the request. -/
theorem C8_node_initial_state (cfg : NodeConfig) :
    (Node.init cfg).pid = 0 ∧ (Node.init cfg).killed = false ∧
    (Node.init cfg).exit_status = 0 ∧ (Node.init cfg).signal_number = 0 ∧
    (Node.init cfg).revival_attempts = 0 ∧ (Node.init cfg).revival_delay = 1 ∧
    (Node.init cfg).config = cfg :=
  ⟨rfl, rfl, rfl, rfl, rfl, rfl, rfl⟩

/-- C4: decoding the JSON encoding of any NodeConfig, including one with
an empty cluster map and absent optional fields, yields a structurally
equal value. -/
theorem C4_json_roundtrip (c : NodeConfig) :
    NodeConfig.fromJSON c.toJSON = some c :=
  fromJSON_toJSON c

/-- C5: for every node name (the empty name meaning all nodes), a
Destroy followed immediately by a Status on the same name returns no
matching Node, whatever the prior state was. -/
theorem C5_destroy_then_status_empty (s : Supervisor) (name : String) :
    ((s.destroy name).1).status name = [] := by
  unfold Supervisor.destroy Supervisor.status
  by_cases he : name = ""
  · simp [he]
  · cases hf : findNode s.nodes name with
    | some n => simp [he, hf, matchingNodes_removeNode]
    | none => simp [he, hf, matchingNodes_of_findNode_none s.nodes name hf]

/-- C2: at a reap with killed = false the revival step increments
revival_attempts by one and doubles revival_delay, capped at the fixed
ceiling, which the new delay never exceeds; a revived process that stays
up past the stability threshold has revival_attempts reset to 0 and
revival_delay reset to 1. -/
theorem C2_revival_backoff (ceiling : Int) (n m : Node) (es sg : Int)
    (threshold now : Nat) (hk : n.killed = false) (hp : m.pid ≠ 0)
    (ht : m.spawn_time + threshold ≤ now) :
    (Node.reap ceiling n es sg).revival_attempts = n.revival_attempts + 1 ∧
    (Node.reap ceiling n es sg).revival_delay = min (n.revival_delay * 2) ceiling ∧
    (Node.reap ceiling n es sg).revival_delay ≤ ceiling ∧
    (Node.checkStability threshold now m).revival_attempts = 0 ∧
    (Node.checkStability threshold now m).revival_delay = 1 := by
  refine ⟨?_, ?_, ?_, ?_, ?_⟩ <;>
    simp [Node.reap, Node.checkStability, hk, hp, ht, min_le_right]

/-- Witness for C2 at a concrete unplanned death and a concrete stable
revived node. -/
theorem C2_revival_backoff_witness :
    (Node.init cfgA).killed = false ∧ nodeA1.pid ≠ 0 ∧
    nodeA1.spawn_time + 10 ≤ 12 ∧
    (Node.reap 60 (Node.init cfgA) 1 9).revival_delay ≤ 60 ∧
    (Node.checkStability 10 12 nodeA1).revival_delay = 1 :=
  ⟨rfl, by decide, by decide,
   (C2_revival_backoff 60 (Node.init cfgA) nodeA1 1 9 10 12 rfl (by decide)
      (by decide)).2.2.1,
   (C2_revival_backoff 60 (Node.init cfgA) nodeA1 1 9 10 12 rfl (by decide)
      (by decide)).2.2.2.2⟩

/-- C3: Create with a name that already exists in the node map fails
with the AlreadyExists error string and leaves the entire Supervisor
state, in particular the existing Node, unchanged. -/
theorem C3_duplicate_create_rejected (s : Supervisor) (cfg : NodeConfig) (n : Node)
    (h : findNode s.nodes cfg.name = some n) :
    (s.create cfg).1 = s ∧
    (s.create cfg).2 = "node with name already exists: " ++ cfg.name ∧
    (s.create cfg).2 ≠ "" := by
  refine ⟨?_, ?_, ?_⟩ <;> simp [Supervisor.create, h, create_err_ne_empty]

/-- Witness for C3: creating cfgA twice from the empty Supervisor. -/
theorem C3_duplicate_create_rejected_witness :
    findNode sup1.nodes cfgA.name = some nodeA1 ∧
    (sup1.create cfgA).1 = sup1 ∧ (sup1.create cfgA).2 ≠ "" :=
  ⟨rfl, (C3_duplicate_create_rejected sup1 cfgA nodeA1 rfl).1,
   (C3_duplicate_create_rejected sup1 cfgA nodeA1 rfl).2.2⟩

theorem restart_found (s : Supervisor) (name : String) (node : Node)
    (hne : name ≠ "") (hf : findNode s.nodes name = some node)
    (hkeys : NodeMapKeysMatch s.nodes) :
    s.restart name = (((s.destroy name).1.create node.config).1, true) := by
  have hnm : name = node.config.name := hkeys (name, node) (findNode_mem _ _ _ hf)
  have hcr : ((s.destroy name).1.create node.config).2 = "" := by
    rw [create_snd_empty_iff, ← hnm]
    simp [Supervisor.destroy, hne, hf, findNode_removeNode]
  unfold Supervisor.restart
  simp [hne, hf, hcr]

/-- C6 (amended in one respect only if needed): Restart on an existing
name, under the map-key invariant, is exactly Destroy followed by Create
with the stored NodeConfig, succeeds, and the configuration stored for
the name after the restart is structurally (byte-for-byte) equal to the
one supplied at the original Create. -/
theorem C6_restart_equiv_destroy_create (s : Supervisor) (name : String) (node : Node)
    (hne : name ≠ "") (hf : findNode s.nodes name = some node)
    (hkeys : NodeMapKeysMatch s.nodes) :
    (s.restart name).1 = ((s.destroy name).1.create node.config).1 ∧
    (s.restart name).2 = true ∧
    ∃ m : Node, findNode ((s.restart name).1).nodes name = some m ∧
      m.config = node.config := by
  have hnm : name = node.config.name := hkeys (name, node) (findNode_mem _ _ _ hf)
  have hmain := restart_found s name node hne hf hkeys
  have hs1 : ((s.destroy name).1).nodes = removeNode s.nodes name := by
    simp [Supervisor.destroy, hne, hf]
  have hn1 : findNode ((s.destroy name).1).nodes node.config.name = none := by
    rw [hs1, ← hnm]
    exact findNode_removeNode _ _
  refine ⟨by rw [hmain], by rw [hmain], ?_⟩
  rw [hmain]
  refine ⟨{ Node.init node.config with
             pid := Int.ofNat ((s.destroy name).1).next_pid,
             spawn_time := ((s.destroy name).1).time }, ?_, rfl⟩
  have hc : (((s.destroy name).1).create node.config).1.nodes =
      ((s.destroy name).1).nodes ++
        [(node.config.name,
          { Node.init node.config with
               pid := Int.ofNat ((s.destroy name).1).next_pid,
               spawn_time := ((s.destroy name).1).time })] := by
    simp [Supervisor.create, hn1]
  rw [hc, ← hnm]
  exact findNode_append_none _ _ _ (by nth_rewrite 2 [hnm]; exact hn1)

/-- Witness for C6 at the one-node Supervisor sup1. -/
theorem C6_restart_equiv_destroy_create_witness :
    (sup1.restart "w1").2 = true ∧
    ∃ m : Node, findNode ((sup1.restart "w1").1).nodes "w1" = some m ∧
      m.config = nodeA1.config :=
  ⟨(C6_restart_equiv_destroy_create sup1 "w1" nodeA1 (by decide) rfl
      (by unfold NodeMapKeysMatch; decide)).2.1,
   (C6_restart_equiv_destroy_create sup1 "w1" nodeA1 (by decide) rfl
      (by unfold NodeMapKeysMatch; decide)).2.2⟩

/-- C1 counterexample: at the concrete input name w1 on the empty
Supervisor, Destroy and Restart fail yet hand the caller only the bare
boolean false; the header declares both with return type bool (true on
success), so no descriptive error string is surfaced, contrary to the
claim. -/
theorem C1_counterexample :
    supervisor0.destroy "w1" = (supervisor0, false) ∧
    supervisor0.restart "w1" = (supervisor0, false) :=
  ⟨rfl, rfl⟩

/-- C1 amended: Create returns the empty string on success and a
human-readable error description on failure, while Destroy and Restart
return a bare boolean, true exactly on success (the empty name, meaning
all nodes, or a name present in the map). -/
theorem C1_operation_results (s : Supervisor) (cfg : NodeConfig) (name : String)
    (hkeys : NodeMapKeysMatch s.nodes) :
    ((s.create cfg).2 = "" ↔ findNode s.nodes cfg.name = none) ∧
    ((s.destroy name).2 = true ↔
      (name = "" ∨ (findNode s.nodes name).isSome = true)) ∧
    ((s.restart name).2 = true ↔
      (name = "" ∨ (findNode s.nodes name).isSome = true)) := by
  refine ⟨create_snd_empty_iff s cfg, ?_, ?_⟩
  · unfold Supervisor.destroy
    by_cases he : name = ""
    · simp [he]
    · cases hf : findNode s.nodes name with
      | some n => simp [he, hf]
      | none => simp [he, hf]
  · by_cases he : name = ""
    · simp [Supervisor.restart, he]
    · cases hf : findNode s.nodes name with
      | some n => simp [restart_found s name n he hf hkeys, he, hf]
      | none => simp [Supervisor.restart, he, hf]

/-- Witness for C1 at the one-node Supervisor sup1. -/
theorem C1_operation_results_witness :
    NodeMapKeysMatch sup1.nodes ∧
    (((sup1.create cfgA).2 = "" ↔ findNode sup1.nodes cfgA.name = none) ∧
     ((sup1.destroy "w1").2 = true ↔
       ("w1" = "" ∨ (findNode sup1.nodes "w1").isSome = true)) ∧
     ((sup1.restart "w1").2 = true ↔
       ("w1" = "" ∨ (findNode sup1.nodes "w1").isSome = true))) :=
  ⟨by unfold NodeMapKeysMatch; decide,
   C1_operation_results sup1 cfgA "w1" (by unfold NodeMapKeysMatch; decide)⟩

/-- C7: when the parent identity has changed for good at death time d,
the first liveness tick at or after d (tick k+1, where d falls strictly
after tick k) makes the dispatch self-terminate, and that tick occurs no
later than one check interval after the death. -/
theorem C7_parent_death_detected (recorded : Nat) (parentAt : Nat → Nat)
    (t0 i k d : Nat) (hdead : ∀ t, d ≤ t → parentAt t ≠ recorded)
    (h1 : tickTime t0 i k < d) (h2 : d ≤ tickTime t0 i (k + 1)) :
    parentCheckDispatch recorded parentAt (tickTime t0 i (k + 1)) = true ∧
    tickTime t0 i (k + 1) ≤ d + i := by
  constructor
  · simpa [parentCheckDispatch, bne_iff_ne] using hdead _ h2
  · have hexp : tickTime t0 i (k + 1) = tickTime t0 i k + i := by
      unfold tickTime
      ring
    rw [hexp]
    exact Nat.le_of_lt (Nat.add_lt_add_right h1 i)

/-- Witness for C7: parent dies at time 7, ticks every 3 seconds from
time 0; the tick at time 9 detects the orphaning, within one interval. -/
theorem C7_parent_death_detected_witness :
    parentCheckDispatch 5 parentTraceA (tickTime 0 3 3) = true ∧
    tickTime 0 3 3 ≤ 7 + 3 :=
  C7_parent_death_detected 5 parentTraceA 0 3 2 7
    (by
      intro t ht
      have h7 : ¬ t < 7 := by omega
      simp [parentTraceA, h7])
    (by decide) (by decide)

/-- C9 counterexample: the header declares cpu_affinity as an optional
signed int, so the concrete configuration cfgNegAff carries the negative
affinity -1 and is accepted unchanged by the JSON round trip and by
Create; the non-negativity asserted by the claim fails on it. -/
theorem C9_counterexample :
    ¬ (∀ z : Int, cfgNegAff.cpu_affinity = some z → 0 ≤ z) ∧
    NodeConfig.fromJSON cfgNegAff.toJSON = some cfgNegAff ∧
    (supervisor0.create cfgNegAff).2 = "" :=
  ⟨fun h => absurd (h (-1) rfl) (by decide), fromJSON_toJSON cfgNegAff, rfl⟩

/-- C9 amended: cpu_affinity, when present, is a signed integer; the
code places no non-negativity restriction on it, and a configuration
with any integer affinity round-trips through JSON and is accepted by
Create. -/
theorem C9_affinity_any_int (z : Int) :
    (cfgWithAff z).cpu_affinity = some z ∧
    NodeConfig.fromJSON (cfgWithAff z).toJSON = some (cfgWithAff z) ∧
    (supervisor0.create (cfgWithAff z)).2 = "" :=
  ⟨rfl, fromJSON_toJSON _, rfl⟩

/-- C10: Node::Name returns config.name, and the invariant that every
NodeMap entry is keyed by its Node's config.name is preserved by Create,
Destroy and Restart. -/
theorem C10_keys_invariant (s : Supervisor) (cfg : NodeConfig) (name : String)
    (n : Node) (h : NodeMapKeysMatch s.nodes) :
    n.Name = n.config.name ∧
    NodeMapKeysMatch ((s.create cfg).1).nodes ∧
    NodeMapKeysMatch ((s.destroy name).1).nodes ∧
    NodeMapKeysMatch ((s.restart name).1).nodes :=
  ⟨rfl, keysMatch_create s cfg h, keysMatch_destroy s name h,
   keysMatch_restart s name h⟩

/-- Witness for C10 starting from the empty Supervisor. -/
theorem C10_keys_invariant_witness :
    NodeMapKeysMatch supervisor0.nodes ∧
    nodeA1.Name = nodeA1.config.name ∧
    NodeMapKeysMatch ((supervisor0.create cfgA).1).nodes :=
  ⟨by unfold NodeMapKeysMatch; decide,
   (C10_keys_invariant supervisor0 cfgA "w1" nodeA1
      (by unfold NodeMapKeysMatch; decide)).1,
   (C10_keys_invariant supervisor0 cfgA "w1" nodeA1
      (by unfold NodeMapKeysMatch; decide)).2.1⟩

end ZeekSup
